import Mathlib

/-!  Shallow embedding of the core of the NEO proxy service (src/main.py):
metrics extraction (`compute_metrics`), threat classification
(`classify_threat`), mitigation advice (`mitigation_suggestions`), the
physical-parameter resolver (`enrich_by_label`) and the first-order impact
physics engine (`estimate_impact_effects`).

Modelling conventions:
* Python floats are modelled as exact rationals (`ℚ`); values produced by
  transcendental float operations (fractional powers, `sin`, `exp`,
  `log10`, `sqrt`, `math.pi`) are modelled as real numbers (`ℝ`).
* Fallible field access / `float(...)` parsing is modelled by `Option`
  fields carrying the parse result (`none` = the Python expression raises).
* Timestamps are modelled as epoch seconds (`Int`); `datetime.now()` is an
  explicit `now : Int` argument.  The timezone-awareness distinction of
  Python datetimes is outside the model.
* Network fetches and JSON decoding are modelled by passing the extracted
  payloads (or their absence) as explicit inputs; the TTL caches are pure
  memoisation of these pure functions and are not modelled.
* Python truthiness (`if x:`, `x or d`) is modelled explicitly by the
  `truthy…` / `pyOr…` helpers below. -/

namespace NeoProxy

/-- Python truthiness of an optional float: `None` and `0.0` are falsy,
every other float is truthy. -/
def truthyQ : Option ℚ → Prop
  | none => False
  | some v => v ≠ 0

instance (x : Option ℚ) : Decidable (truthyQ x) :=
  match x with
  | none => isFalse id
  | some v => inferInstanceAs (Decidable (v ≠ 0))

/-- Python `x or d` on an optional float (`None` and `0.0` fall back to `d`). -/
def pyOrQ : Option ℚ → ℚ → ℚ
  | none, d => d
  | some v, d => if v = 0 then d else v

/-- Python `x or d` on a plain float (`0.0` falls back to `d`). -/
def pyOrQ1 (x d : ℚ) : ℚ := if x = 0 then d else x

/-- Python `s or d` on a string (only the empty string is falsy). -/
def pyOrStr (s d : String) : String := if s = "" then d else s

/-- One element of `close_approach_data`.  `miss_km` / `rel_vel_kms` carry
the result of `float(ap["miss_distance"]["kilometers"])` resp.
`float(ap["relative_velocity"]["kilometers_per_second"])` (`none` = that
parse raises).  `dt_present` says whether
`ap.get("close_approach_date_full") or ap.get("close_approach_date")` is
truthy, and `dt_parse` is the epoch result of parsing that string with
`datetime.fromisoformat` / the two `strptime` fallback formats (`none` =
all of those fail, in which case `_parse_iso` falls through to
`datetime.now`). -/
structure CloseApproach where
  miss_km : Option ℚ
  rel_vel_kms : Option ℚ
  dt_present : Bool
  dt_parse : Option Int
deriving DecidableEq

/-- The slice of a NeoWS record read by the core: the estimated-diameter
range, the hazard flag, the absolute magnitude and the close-approach
list. -/
structure NeoRecord where
  diameter_min_km : Option ℚ
  diameter_max_km : Option ℚ
  is_potentially_hazardous : Bool
  absolute_magnitude_h : Option ℚ
  close_approach_data : List CloseApproach
deriving DecidableEq

/-- The dictionary returned by `compute_metrics`. -/
structure Metrics where
  diameter_km : Option ℚ
  is_hazardous : Bool
  min_miss_km : Option ℚ
  days_to_soonest_approach : Option Int
  soonest_approach_utc : Option Int
  max_rel_vel_kms : ℚ
  absolute_magnitude_h : Option ℚ
deriving DecidableEq

/-- `_parse_iso` never fails: if every format fails it returns
`datetime.now(timezone.utc)`, i.e. `now`. -/
def parse_iso (now : Int) (p : Option Int) : Int := p.getD now

/-- Per-entry timestamp of `compute_metrics`:
`dt = _parse_iso(dt_str) if dt_str else None`. -/
def entry_dt (now : Int) (ap : CloseApproach) : Option Int :=
  if ap.dt_present then some (parse_iso now ap.dt_parse) else none

/-- Loop state of the `for ap in neo.get("close_approach_data", [])` loop:
`min_miss` (`none` models the `float("inf")` initialiser), `soonest_dt`
and `max_rel_vel_kms`. -/
structure ApState where
  min_miss : Option ℚ
  soonest : Option Int
  max_vel : ℚ
deriving DecidableEq

/-- One iteration of the loop body of `compute_metrics`.  The `try` block
first parses miss distance and relative velocity; if either raises, the
whole entry is skipped (`continue`) and the state is unchanged.  Otherwise
the three trackers are updated; timestamp handling cannot raise, since
`_parse_iso` is total. -/
def approach_step (now : Int) (st : ApState) (ap : CloseApproach) : ApState :=
  match ap.miss_km, ap.rel_vel_kms with
  | some md, some rv =>
    let dt := entry_dt now ap
    { min_miss := some (match st.min_miss with
        | none => md
        | some c => if md < c then md else c)
      soonest := match dt, st.soonest with
        | some d, none => some d
        | some d, some s => if d < s then some d else some s
        | none, s => s
      max_vel := if rv > st.max_vel then rv else st.max_vel }
  | _, _ => st

/-- `compute_metrics(neo)`.  `diameter_km` is
`estimated_diameter.kilometers.estimated_diameter_max` (`none` if the
lookup raises); `days_to_soonest_approach` is
`int((soonest_dt - now).total_seconds() // 86400)`, floor division. -/
def compute_metrics (now : Int) (neo : NeoRecord) : Metrics :=
  let st := neo.close_approach_data.foldl (approach_step now) ⟨none, none, 0⟩
  { diameter_km := neo.diameter_max_km
    is_hazardous := neo.is_potentially_hazardous
    min_miss_km := st.min_miss
    days_to_soonest_approach := st.soonest.map (fun s => (s - now).fdiv 86400)
    soonest_approach_utc := st.soonest
    max_rel_vel_kms := st.max_vel
    absolute_magnitude_h := neo.absolute_magnitude_h }

/-- The four threat strings returned by `classify_threat`
("LOW"/"MODERATE"/"HIGH"/"CRITICAL"), as an enumeration. -/
inductive ThreatLevel
  | LOW
  | MODERATE
  | HIGH
  | CRITICAL
deriving DecidableEq

/-- Base score of `classify_threat`: `dia >= 0.3 → 3`, `dia >= 0.05 → 2`,
else `1`. -/
def diameter_base (dia : ℚ) : ℚ :=
  if dia ≥ 3/10 then 3 else if dia ≥ 1/20 then 2 else 1

/-- Miss-distance bonus of `classify_threat`: `+1` if `near`
(`miss < 1_000_000`), elif `+0.5` if `mid_near` (`miss < 5_000_000`);
both require `miss is not None`. -/
def miss_bonus : Option ℚ → ℚ
  | none => 0
  | some x => if x < 1000000 then 1 else if x < 5000000 then 1/2 else 0

/-- Day-window bonus of `classify_threat`: `+1` if `soon` (`days <= 30`),
elif `+0.5` if `mid_term` (`30 < days <= 365`); both require
`days is not None`.  (In the elif branch `days > 30` already holds, so the
test reduces to `days <= 365`.) -/
def days_bonus : Option Int → ℚ
  | none => 0
  | some t => if t ≤ 30 then 1 else if t ≤ 365 then 1/2 else 0

/-- The score `lvl` accumulated by `classify_threat`;
`dia = m.get("diameter_km") or 0.0`. -/
def threat_score (m : Metrics) : ℚ :=
  diameter_base (pyOrQ m.diameter_km 0) + miss_bonus m.min_miss_km
    + days_bonus m.days_to_soonest_approach

/-- Final thresholds of `classify_threat`: `lvl >= 4 → CRITICAL`,
`>= 3 → HIGH`, `>= 2 → MODERATE`, else `LOW`. -/
def tier_of_score (lvl : ℚ) : ThreatLevel :=
  if lvl ≥ 4 then .CRITICAL
  else if lvl ≥ 3 then .HIGH
  else if lvl ≥ 2 then .MODERATE
  else .LOW

/-- `classify_threat(m)`. -/
def classify_threat (m : Metrics) : ThreatLevel :=
  tier_of_score (threat_score m)

/-- One entry of the list built by `mitigation_suggestions`; `when_label`
is the `"when"` key of the Python dict. -/
structure MitigationSuggestion where
  title : String
  when_label : String
  rationale : String
  actions : List String
  suitable_for : List ThreatLevel
deriving DecidableEq

/-- The unconditional first suggestion of `mitigation_suggestions`. -/
def baseline_suggestion : MitigationSuggestion :=
  { title := "Monitoramento reforçado e refinamento orbital"
    when_label := "imediato e contínuo"
    rationale := "Melhora a precisão da órbita e reduz incertezas antes de qualquer decisão."
    actions := ["Follow-up com observatórios (óptico/radar).",
                "Atualizar efemérides e propagar com perturbações."]
    suitable_for := [.LOW, .MODERATE, .HIGH, .CRITICAL] }

/-- Suggestion 2: international coordination. -/
def intl_coordination_suggestion : MitigationSuggestion :=
  { title := "Coordenação internacional (IAWN/NEO coordination)"
    when_label := "curto prazo"
    rationale := "Padroniza avaliação de risco e acesso a ativos de observação/defesa planetária."
    actions := ["Compartilhar elementos orbitais atualizados e janelas de visibilidade.",
                "Planejar campanhas observacionais multi-longitude."]
    suitable_for := [.MODERATE, .HIGH, .CRITICAL] }

/-- Suggestion 3: civil protection. -/
def civil_protection_suggestion : MitigationSuggestion :=
  { title := "Proteção civil e preparação de emergência"
    when_label := "curtíssimo prazo"
    rationale := "Mitigar danos caso ocorra entrada atmosférica inesperada."
    actions := ["Planos de evacuação/comunicação pública.",
                "Inventário de abrigos e protocolos para infraestrutura crítica."]
    suitable_for := [.HIGH, .CRITICAL] }

/-- Suggestion 4: kinetic impactor. -/
def kinetic_impactor_suggestion : MitigationSuggestion :=
  { title := "Deflexão cinética (Kinetic Impactor)"
    when_label := "médio/longo prazo"
    rationale := "Pequena mudança de velocidade ao longo de anos pode evitar impacto."
    actions := ["Janela de lançamento e Δv.",
                "Análises de coesão/rotação do alvo."]
    suitable_for := [.MODERATE, .HIGH] }

/-- Suggestion 5: gravity tractor. -/
def gravity_tractor_suggestion : MitigationSuggestion :=
  { title := "Trator gravitacional"
    when_label := "longo prazo"
    rationale := "Empuxo gravitacional contínuo, útil quando há muitos anos de antecedência."
    actions := ["Estimar massa/forma do NEO; simular permanência orbital.",
                "Avaliar consumo de propelente e ressonâncias."]
    suitable_for := [.MODERATE, .HIGH] }

/-- Suggestion 6: standoff nuclear option. -/
def nuclear_standoff_suggestion : MitigationSuggestion :=
  { title := "Explosão nuclear standoff (último recurso)"
    when_label := "curto prazo"
    rationale := "Opção extrema quando o tempo é insuficiente."
    actions := ["Análise legal e coordenação internacional.",
                "Estudo de fragmentação e risco colateral."]
    suitable_for := [.HIGH, .CRITICAL] }

/-- `mitigation_suggestions(m, level)`: the baseline entry is appended
unconditionally first, then each rule appends its entry when its guard
holds.  (The local `vel` binding of the source is dead and omitted.) -/
def mitigation_suggestions (m : Metrics) (level : ThreatLevel) :
    List MitigationSuggestion :=
  let dia := pyOrQ m.diameter_km 0
  let days := m.days_to_soonest_approach
  let miss := m.min_miss_km
  let short_window : Bool := match days with
    | some d => decide (d ≤ 30)
    | none => false
  let year_window : Bool := match days with
    | some d => decide (d > 365)
    | none => false
  let miss_near : Bool := match miss with
    | some x => decide (x < 1000000)
    | none => false
  let days_within_year : Bool := match days with
    | some d => decide (d ≤ 365)
    | none => false
  [baseline_suggestion]
    ++ (if level = .MODERATE ∨ level = .HIGH ∨ level = .CRITICAL then
          [intl_coordination_suggestion] else [])
    ++ (if short_window ∨ miss_near then [civil_protection_suggestion] else [])
    ++ (if dia ≥ 1/20 ∧ ¬short_window then [kinetic_impactor_suggestion] else [])
    ++ (if dia ≥ 1/10 ∧ year_window then [gravity_tractor_suggestion] else [])
    ++ (if (level = .HIGH ∨ level = .CRITICAL) ∧ days_within_year ∧ dia ≥ 3/20 then
          [nuclear_standoff_suggestion] else [])

/-- `_resolve_velocity_kms(neo, velocity_kms)`: a truthy query override
wins; else `compute_metrics(neo)` is consulted
(`m.get("max_rel_vel_kms") or m.get("min_rel_vel_kms")`, where the metrics
dict has no `"min_rel_vel_kms"` key, so that read is always `None`); a
truthy metrics velocity wins; else the 20 km/s default. -/
def resolve_velocity_kms (now : Int) (neo : NeoRecord)
    (velocity_kms : Option ℚ) : ℚ :=
  if truthyQ velocity_kms then velocity_kms.getD 0
  else
    let v := (compute_metrics now neo).max_rel_vel_kms
    if v ≠ 0 then v else 20

/-- Python truthiness of an optional real (`None` and `0.0` are falsy);
used where the truthiness test is applied to a value that may come from a
transcendental float computation.  From here on the file works with real
numbers, whose comparisons are only classically decidable, so the rest of
the embedding is classical and the affected definitions noncomputable. -/
def truthyR : Option ℝ → Prop
  | none => False
  | some v => v ≠ 0

open Classical

/-- Python `x or d` on an optional real. -/
noncomputable def pyOrR (x : Option ℝ) (d : ℝ) : ℝ :=
  if truthyR x then x.getD 0 else d

/-- Configured default density (env `DEFAULT_RHO_G_CM3`, default `2.5`). -/
def DEFAULT_RHO_G_CM3 : ℚ := 5/2

/-- Configured default albedo (env `DEFAULT_ALBEDO`, default `0.14`). -/
def DEFAULT_ALBEDO : ℚ := 7/50

/-- The static `TAXO_RHO` table mapping spectral classes to typical
densities (g/cm³); `none` models a missing key. -/
def TAXO_RHO (c : String) : Option ℚ :=
  if c = "C" ∨ c = "B" ∨ c = "G" ∨ c = "F" then some (13/10)
  else if c = "S" ∨ c = "Q" then some (27/10)
  else if c = "V" ∨ c = "A" ∨ c = "R" then some 3
  else if c = "K" ∨ c = "L" then some (5/2)
  else if c = "M" then some (53/10)
  else if c = "X" then some (7/2)
  else if c = "E" then some 3
  else if c = "P" then some (9/5)
  else if c = "D" then some (3/2)
  else if c = "T" then some (8/5)
  else none

/-- `estimate_diameter_from_H(H, pV) = 1329 / pV**0.5 * 10**(-H/5)`,
`None` when `H` is `None` or `pV <= 0`.  (`pV` is always a concrete
rational in this code base, so only the result is a real.) -/
noncomputable def estimate_diameter_from_H (H : Option ℚ) (pV : ℚ) :
    Option ℝ :=
  match H with
  | none => none
  | some Hn =>
    if pV ≤ 0 then none
    else some (1329 / (pV : ℝ) ^ ((1 : ℝ)/2) * (10 : ℝ) ^ (-(Hn : ℝ) / 5))

/-- `_diameter_from_neows(neo)`: average of min/max when both are truthy,
else `dmax or dmin`. -/
def diameter_from_neows (neo : NeoRecord) : Option ℚ :=
  let dmin := neo.diameter_min_km
  let dmax := neo.diameter_max_km
  if truthyQ dmin ∧ truthyQ dmax then some ((dmin.getD 0 + dmax.getD 0) / 2)
  else if truthyQ dmax then dmax else dmin

/-- `estimate_mass_from_diameter_density(d_km, rho_g_cm3)`:
`None` when either input is falsy, else
`(rho*1000) * (4/3)π * (d*1000/2)³` (kg). -/
noncomputable def estimate_mass_from_diameter_density
    (d_km : Option ℝ) (rho_g_cm3 : Option ℚ) : Option ℝ :=
  match d_km, rho_g_cm3 with
  | some d, some r =>
    if d = 0 ∨ r = 0 then none
    else some (((r : ℝ) * 1000) * ((4 : ℝ)/3 * Real.pi * (d * 1000 / 2) ^ (3 : ℕ)))
  | _, _ => none

/-- Output of `extract_phys_from_ssocard`: the numeric fields are the
`_num`-parsed (hence rational) values found in the SsODNet card, `none`
where absent/unparseable.  A `none` for the whole record models a falsy
`ssod_quaero` result (step 1 of `enrich_by_label` is then skipped
entirely); an all-`none` record models a card with no physical data. -/
structure SsodPhys where
  diameter_km : Option ℚ
  mass_kg : Option ℚ
  density_g_cm3 : Option ℚ
  taxonomy : Option String
  bibcode : Option String
deriving DecidableEq

/-- Output of `extract_phys_from_sbdb`: `_num`-parsed values from the SBDB
`phys_par` block.  The empty dict returned on provider failure behaves
exactly like the all-`none` record under the fill loop, so no separate
`Option` layer is needed. -/
structure SbdbPhys where
  diameter_km : Option ℚ
  mass_kg : Option ℚ
  density_g_cm3 : Option ℚ
deriving DecidableEq

/-- The `result` dict of `enrich_by_label`.  Diameter and mass may come
from transcendental estimates (H-based diameter, sphere-volume mass) and
are therefore reals; density only ever comes from `_num` parses, the
taxonomy table or the configured default, hence stays rational.  The
free-text `note` field is a diagnostic string and is not modelled. -/
structure PhysProfile where
  source : Option String
  mass_kg : Option ℝ
  density_g_cm3 : Option ℚ
  diameter_km : Option ℝ
  taxonomy : Option String
  bibcode : Option String

/-- Step 1 of `enrich_by_label`: if the SsODNet lookup succeeded and any of
mass/density/diameter is truthy, `result.update(ssop)` copies all five
extracted fields and sets `source = "ssodnet"`. -/
def enrich_step_ssod (ssod : Option SsodPhys) : PhysProfile :=
  let r0 : PhysProfile := ⟨none, none, none, none, none, none⟩
  match ssod with
  | none => r0
  | some sp =>
    if truthyQ sp.mass_kg ∨ truthyQ sp.density_g_cm3 ∨ truthyQ sp.diameter_km then
      { source := some "ssodnet"
        mass_kg := sp.mass_kg.map (fun q : ℚ => (q : ℝ))
        density_g_cm3 := sp.density_g_cm3
        diameter_km := sp.diameter_km.map (fun q : ℚ => (q : ℝ))
        taxonomy := sp.taxonomy
        bibcode := sp.bibcode }
    else r0

/-- Step 2 of `enrich_by_label`: when any of mass/density/diameter is still
`None`, each SBDB field fills the corresponding still-`None` slot, and
`source = "sbdb"` is set when the filled result has any truthy numeric
field and `source` was still unset. -/
noncomputable def enrich_step_sbdb (r : PhysProfile) (sb : SbdbPhys) :
    PhysProfile :=
  if r.mass_kg = none ∨ r.density_g_cm3 = none ∨ r.diameter_km = none then
    let a := { r with
      diameter_km := match r.diameter_km, sb.diameter_km with
        | none, some v => some (v : ℝ)
        | x, _ => x
      mass_kg := match r.mass_kg, sb.mass_kg with
        | none, some v => some (v : ℝ)
        | x, _ => x
      density_g_cm3 := match r.density_g_cm3, sb.density_g_cm3 with
        | none, some v => some v
        | x, _ => x }
    if (truthyR a.mass_kg ∨ truthyQ a.density_g_cm3 ∨ truthyR a.diameter_km)
        ∧ a.source = none then
      { a with source := some "sbdb" }
    else a
  else r

/-- Step 3a of `enrich_by_label`: fill a still-`None` diameter from the
NeoWS context record. -/
noncomputable def enrich_step_diameter_ctx (r : PhysProfile)
    (ctx : Option NeoRecord) : PhysProfile :=
  if r.diameter_km = none then
    match ctx with
    | some c =>
      match diameter_from_neows c with
      | some d => { r with diameter_km := some (d : ℝ) }
      | none => r
    | none => r
  else r

/-- Step 3b of `enrich_by_label`: fill a still-`None` diameter from the
context's absolute magnitude (`(neo_context or {}).get("absolute_magnitude_h")`)
via the default albedo. -/
noncomputable def enrich_step_diameter_H (r : PhysProfile)
    (ctx : Option NeoRecord) : PhysProfile :=
  if r.diameter_km = none then
    match estimate_diameter_from_H (ctx.bind (fun c => c.absolute_magnitude_h))
        DEFAULT_ALBEDO with
    | some d => { r with diameter_km := some d }
    | none => r
  else r

/-- Step 3c of `enrich_by_label`: fill a still-`None` density from the
taxonomy table (`str(result.get("taxonomy") or "").upper()`), else the
configured default density. -/
def enrich_step_density (r : PhysProfile) : PhysProfile :=
  if r.density_g_cm3 = none then
    let taxo_key := (match r.taxonomy with
      | some t => t
      | none => "").toUpper
    let rho := if taxo_key = "" then none else TAXO_RHO taxo_key
    match rho with
    | some v => { r with density_g_cm3 := some v }
    | none => { r with density_g_cm3 := some DEFAULT_RHO_G_CM3 }
  else r

/-- Step 3d of `enrich_by_label`: when mass is still `None` and diameter
and density are both truthy, estimate the mass from the sphere volume. -/
noncomputable def enrich_step_mass (r : PhysProfile) : PhysProfile :=
  if r.mass_kg = none ∧ truthyR r.diameter_km ∧ truthyQ r.density_g_cm3 then
    match estimate_mass_from_diameter_density r.diameter_km r.density_g_cm3 with
    | some m => { r with mass_kg := some m }
    | none => r
  else r

/-- Final step of `enrich_by_label`: `source = "estimate"` when nothing
came from an external provider. -/
def enrich_step_source (r : PhysProfile) : PhysProfile :=
  if r.source = none then { r with source := some "estimate" } else r

/-- `enrich_by_label(label, neo_context)`, as a pure function of the
extracted provider payloads for that label (the network layer, the label
string itself and the enrichment cache are outside the model). -/
noncomputable def enrich_by_label (ssod : Option SsodPhys) (sb : SbdbPhys)
    (neo_context : Option NeoRecord) : PhysProfile :=
  enrich_step_source (enrich_step_mass (enrich_step_density
    (enrich_step_diameter_H
      (enrich_step_diameter_ctx (enrich_step_sbdb (enrich_step_ssod ssod) sb)
        neo_context)
      neo_context)))

/-- `TARGET_RHO.get((target or "rock").lower(), 2700.0)` — target density
table with default 2700 kg/m³ for unknown keys (lookup is done on the
lower-cased key). -/
def TARGET_RHO (s : String) : ℝ :=
  if s = "rock" then 2700
  else if s = "sedimentary" then 2200
  else if s = "crystalline" then 2700
  else if s = "water" then 1000
  else if s = "ice" then 930
  else 2700

/-- `G_EARTH = 9.80665` m/s². -/
def G_EARTH : ℝ := 9.80665

/-- `JOULES_PER_KT_TNT = 4.184e12`. -/
def JOULES_PER_KT_TNT : ℝ := 4.184e12

/-- `JOULES_PER_MT_TNT = 4.184e15`. -/
def JOULES_PER_MT_TNT : ℝ := 4.184e15

/-- `OCEAN_DEFAULT_DEPTH_M = 4000.0`. -/
def OCEAN_DEFAULT_DEPTH_M : ℚ := 4000

/-- `COAST_DEFAULT_DEPTH_M = 50.0`. -/
def COAST_DEFAULT_DEPTH_M : ℚ := 50

/-- `NEARFIELD_RADIUS_FACTOR = 2.0`. -/
def NEARFIELD_RADIUS_FACTOR : ℝ := 2

/-- `INITIAL_WAVE_ALPHA = 0.10`. -/
def INITIAL_WAVE_ALPHA : ℝ := 0.10

/-- `DISPERSION_LENGTH_KM = 1000.0`. -/
def DISPERSION_LENGTH_KM : ℚ := 1000

/-- `RUNUP_FACTOR = 2.0`. -/
def RUNUP_FACTOR : ℚ := 2

/-- `SEISMIC_COUPLING_DEFAULT = 1e-4`. -/
def SEISMIC_COUPLING_DEFAULT : ℚ := 1/10000

/-- `_to_kg_m3_from_g_cm3(x)`: `None` stays `None`, else `x * 1000`
(the inner `_num` parse is the identity on already-numeric values). -/
def to_kg_m3_from_g_cm3 (x : Option ℚ) : Option ℚ := x.map (· * 1000)

/-- `_resolve_diameter_km(neo, enr, override_km)`: an override supplied
(`is not None`, so even `0.0` is honoured here) wins; else a truthy
enrichment diameter; else `_diameter_from_neows`; else the H-based
estimate with the default albedo. -/
noncomputable def resolve_diameter_km (neo : NeoRecord)
    (enr : Option PhysProfile) (override_km : Option ℚ) : Option ℝ :=
  match override_km with
  | some d => some (d : ℝ)
  | none =>
    let viaEnr : Option ℝ := match enr with
      | some e => if truthyR e.diameter_km then e.diameter_km else none
      | none => none
    match viaEnr with
    | some d => some d
    | none =>
      match diameter_from_neows neo with
      | some d => some (d : ℝ)
      | none => estimate_diameter_from_H neo.absolute_magnitude_h DEFAULT_ALBEDO

/-- `_resolve_mass_kg(enr, override_mass_kg, d_km, rho_g_cm3)`: an
override supplied (`is not None`) wins; else a non-`None` enrichment mass;
else the sphere-volume estimate. -/
noncomputable def resolve_mass_kg (enr : Option PhysProfile)
    (override_mass_kg : Option ℚ) (d_km : Option ℝ) (rho_g_cm3 : Option ℚ) :
    Option ℝ :=
  match override_mass_kg with
  | some x => some (x : ℝ)
  | none =>
    match enr with
    | some e =>
      match e.mass_kg with
      | some mk => some mk
      | none => estimate_mass_from_diameter_density d_km rho_g_cm3
    | none => estimate_mass_from_diameter_density d_km rho_g_cm3

/-- `_crater_transient_diameter_m(L_m, v_ms, rho_i, rho_t, theta_deg)`
(pi-scaling law): `None` when any argument is falsy (`not all([...])`),
else `1.161 (ρi/ρt)^(1/3) L^0.78 v^0.44 g^(-0.22) sin(θ)^(1/3)` with the
angle converted to radians. -/
noncomputable def crater_transient_diameter_m (L_m : Option ℝ)
    (v_ms rho_i rho_t theta_deg : ℝ) : Option ℝ :=
  match L_m with
  | none => none
  | some L =>
    if L = 0 ∨ v_ms = 0 ∨ rho_i = 0 ∨ rho_t = 0 ∨ theta_deg = 0 then none
    else some (1.161 * (rho_i / rho_t) ^ ((1 : ℝ)/3) * L ^ (0.78 : ℝ)
      * v_ms ^ (0.44 : ℝ) * G_EARTH ^ (-(0.22 : ℝ))
      * (Real.sin (theta_deg * Real.pi / 180)) ^ ((1 : ℝ)/3))

/-- `_crater_final_from_transient_km(Dtc_m) = 1.25 * (Dtc_m / 1000)`. -/
noncomputable def crater_final_from_transient_km (Dtc_m : Option ℝ) :
    Option ℝ :=
  Dtc_m.map (fun d => 1.25 * (d / 1000))

/-- `_crater_depth_km(Dfr_km)`: `0.20 * Dfr` for simple craters
(`Dfr < 3.2`), else `0.4 * Dfr^0.3`. -/
noncomputable def crater_depth_km (Dfr_km : Option ℝ) : Option ℝ :=
  match Dfr_km with
  | none => none
  | some d => if d < 3.2 then some (0.20 * d) else some (0.4 * d ^ (0.3 : ℝ))

/-- One far-field row of the ocean block. -/
structure OceanRow where
  distance_km : ℝ
  deep_water_amp_m : ℝ
  coastal_amp_m : ℝ
  runup_m : ℝ

/-- The ocean block returned by `_ocean_wavefield_from_crater`. -/
structure OceanField where
  initial_amp_m : ℝ
  nearfield_radius_km : ℝ
  far_field : List OceanRow

/-- `_ocean_wavefield_from_crater(...)`: `None` when the transient crater
diameter is falsy or non-positive; else near-field radius, initial
amplitude and one row per requested distance (spreading + dispersion,
then Green-law shoaling and run-up). -/
noncomputable def ocean_wavefield_from_crater (Dtc_m : Option ℝ)
    (water_depth_m coast_depth_m : ℝ) (distances_km : List ℝ)
    (nearfield_radius_factor alpha_init Ld_km runup_factor : ℝ) :
    Option OceanField :=
  match Dtc_m with
  | none => none
  | some d =>
    if d ≤ 0 then none
    else
      let r0_m := nearfield_radius_factor * (d / 2)
      let A0_m := alpha_init * d
      let rows := (if distances_km = [] then
          ([50, 100, 200, 500] : List ℝ) else distances_km).map (fun Rkm =>
        let R := max (Rkm * 1000) r0_m
        let A_deep := A0_m * (r0_m / R) * Real.exp (-(Rkm / max Ld_km 1))
        let shoal := (water_depth_m / max coast_depth_m 1) ^ ((0.25 : ℝ))
        let A_coast := A_deep * shoal
        { distance_km := Rkm
          deep_water_amp_m := A_deep
          coastal_amp_m := A_coast
          runup_m := runup_factor * A_coast })
      some { initial_amp_m := A0_m
             nearfield_radius_km := r0_m / 1000
             far_field := rows }

/-- The dict returned by `_seismic_from_energy`. -/
structure SeismicBlock where
  Mw : Option ℝ
  E_s_j : Option ℝ
  coupling : ℝ

/-- `_seismic_from_energy(E_k_joules, coupling)`: `Mw`/`E_s_j` are `None`
when the kinetic energy is falsy or non-positive
(`not E_k_joules or E_k_joules <= 0`); else `E_s = coupling * E_k` and
`Mw = (log10(E_s) - 4.8) / 1.5`. -/
noncomputable def seismic_from_energy (E_k_joules : Option ℝ)
    (coupling : ℝ) : SeismicBlock :=
  match E_k_joules with
  | none => { Mw := none, E_s_j := none, coupling := coupling }
  | some e =>
    if e ≤ 0 then { Mw := none, E_s_j := none, coupling := coupling }
    else
      { Mw := some ((Real.logb 10 (coupling * e) - 4.8) / 1.5)
        E_s_j := some (coupling * e)
        coupling := coupling }

/-- The `inputs_resolved` block of the impact scenario. -/
structure ResolvedInputs where
  diameter_km : Option ℝ
  density_g_cm3 : Option ℚ
  mass_kg : Option ℝ
  velocity_kms : ℚ
  angle_deg : ℚ
  target : String

/-- The `energy` block of the impact scenario. -/
structure EnergyBlock where
  kinetic_j : Option ℝ
  tnt_kt : Option ℝ
  tnt_Mt : Option ℝ
  momentum_Ns : Option ℝ

/-- The `crater` block of the impact scenario. -/
structure CraterBlock where
  transient_diameter_km : Option ℝ
  final_diameter_km : Option ℝ
  depth_km : Option ℝ
  crater_type : Option String
  ratio_final_to_impactor : Option ℝ

/-- The dict returned by `estimate_impact_effects`. -/
structure ImpactScenario where
  inputs_resolved : ResolvedInputs
  energy : EnergyBlock
  crater : CraterBlock
  ocean : Option OceanField
  seismic : SeismicBlock
  notes : List String

/-- The inline density resolution of `estimate_impact_effects`
(`override_density_g_cm3 if ... is not None else
(enr or {}).get("density_g_cm3", DEFAULT_RHO_G_CM3)`). -/
def resolve_density_g_cm3 (enr : Option PhysProfile)
    (override_density_g_cm3 : Option ℚ) : Option ℚ :=
  match override_density_g_cm3 with
  | some x => some x
  | none =>
    match enr with
    | none => some DEFAULT_RHO_G_CM3
    | some e => e.density_g_cm3

/-- `estimate_impact_effects(...)` (the live version with ocean and
seismic blocks).  `coast_r_km` is the already-parsed
`_parse_csv_floats(coast_r_km_csv)` list. -/
noncomputable def estimate_impact_effects (now : Int) (neo : NeoRecord)
    (enr : Option PhysProfile) (velocity_kms : Option ℚ) (angle_deg : ℚ)
    (target : String) (override_diameter_km : Option ℚ)
    (override_density_g_cm3 : Option ℚ) (override_mass_kg : Option ℚ)
    (water_depth_m : Option ℚ) (coast_depth_m : ℚ) (coast_r_km : List ℚ)
    (runup_factor : ℚ) (dispersion_length_km : ℚ) (seismic_coupling : ℚ) :
    ImpactScenario :=
  let v_kms := resolve_velocity_kms now neo velocity_kms
  let v_ms : ℝ := (v_kms : ℝ) * 1000
  let d_km := resolve_diameter_km neo enr override_diameter_km
  let rho_g_cm3 : Option ℚ := resolve_density_g_cm3 enr override_density_g_cm3
  let m_kg := resolve_mass_kg enr override_mass_kg d_km rho_g_cm3
  let E_j : Option ℝ := m_kg.map (fun m => 0.5 * m * v_ms ^ (2 : ℕ))
  let tnt_kt := E_j.map (fun e => e / JOULES_PER_KT_TNT)
  let tnt_Mt := E_j.map (fun e => e / JOULES_PER_MT_TNT)
  let p_Ns := m_kg.map (fun m => m * v_ms)
  let L_m : Option ℝ := d_km.map (fun d => d * 1000)
  let rho_i : ℝ := pyOrR ((to_kg_m3_from_g_cm3 rho_g_cm3).map (fun q : ℚ => (q : ℝ))) 2500
  let rho_t : ℝ := TARGET_RHO (pyOrStr target "rock").toLower
  let Dtc_m := crater_transient_diameter_m L_m v_ms rho_i rho_t (angle_deg : ℝ)
  let Dfr_km := crater_final_from_transient_km Dtc_m
  let depth_km := crater_depth_km Dfr_km
  let crater_type : Option String := match Dfr_km with
    | some d => if d < 3.2 then some "simple" else some "complex"
    | none => none
  let ratio : Option ℝ := match Dfr_km, d_km with
    | some f, some d => if f = 0 ∨ d = 0 then none else some (f / d)
    | _, _ => none
  let tgt_lower := (pyOrStr target "rock").toLower
  let ocean : Option OceanField :=
    if tgt_lower = "water" ∨ tgt_lower = "ice" ∨ water_depth_m ≠ none then
      ocean_wavefield_from_crater Dtc_m
        ((pyOrQ water_depth_m OCEAN_DEFAULT_DEPTH_M : ℚ) : ℝ)
        ((pyOrQ1 coast_depth_m COAST_DEFAULT_DEPTH_M : ℚ) : ℝ)
        ((if coast_r_km = [] then
            ([50, 100, 200, 500] : List ℚ) else coast_r_km).map (fun q : ℚ => (q : ℝ)))
        NEARFIELD_RADIUS_FACTOR INITIAL_WAVE_ALPHA
        ((pyOrQ1 dispersion_length_km DISPERSION_LENGTH_KM : ℚ) : ℝ)
        ((pyOrQ1 runup_factor RUNUP_FACTOR : ℚ) : ℝ)
    else none
  let seismic := seismic_from_energy E_j
    ((pyOrQ1 seismic_coupling SEISMIC_COUPLING_DEFAULT : ℚ) : ℝ)
  { inputs_resolved :=
      { diameter_km := d_km
        density_g_cm3 := rho_g_cm3
        mass_kg := m_kg
        velocity_kms := v_kms
        angle_deg := angle_deg
        target := target }
    energy :=
      { kinetic_j := E_j
        tnt_kt := tnt_kt
        tnt_Mt := tnt_Mt
        momentum_Ns := p_Ns }
    crater :=
      { transient_diameter_km := Dtc_m.map (fun d => d / 1000)
        final_diameter_km := Dfr_km
        depth_km := depth_km
        crater_type := crater_type
        ratio_final_to_impactor := ratio }
    ocean := ocean
    seismic := seismic
    notes := ["First-order scaling (EIEP) for cratering.",
      "Ocean: geometric spreading + dispersion + shoaling (very coarse).",
      "Seismic Mw via energy coupling; highly uncertain."] }

/-! ## Spec-side definitions and helper lemmas -/

/-- Threat score as worded by the spec: base from diameter (≥0.3 → 3,
≥0.05 → 2, else 1; null diameter treated as 0), plus 1 if
`min_miss_km < 1,000,000` else 0.5 if `< 5,000,000` (nothing if null),
plus 1 if `days ≤ 30` else 0.5 if days lies in `(30, 365]` (nothing if
null). -/
def spec_threat_score (m : Metrics) : ℚ :=
  (if m.diameter_km.getD 0 ≥ 3/10 then 3
   else if m.diameter_km.getD 0 ≥ 1/20 then 2 else 1)
  + (match m.min_miss_km with
     | some x => if x < 1000000 then 1 else if x < 5000000 then 1/2 else 0
     | none => 0)
  + (match m.days_to_soonest_approach with
     | some t => if t ≤ 30 then 1 else if 30 < t ∧ t ≤ 365 then 1/2 else 0
     | none => 0)

/-- Threat tier as worded by the spec: score ≥ 4 → CRITICAL, ≥ 3 → HIGH,
≥ 2 → MODERATE, else LOW. -/
def spec_threat_tier (m : Metrics) : ThreatLevel :=
  if spec_threat_score m ≥ 4 then .CRITICAL
  else if spec_threat_score m ≥ 3 then .HIGH
  else if spec_threat_score m ≥ 2 then .MODERATE
  else .LOW

lemma pyOrQ_some_zero (d : ℚ) : pyOrQ (some d) 0 = d := by
  by_cases h : d = 0 <;> simp [pyOrQ, h]

lemma pyOrQ_zero (x : Option ℚ) : pyOrQ x 0 = x.getD 0 := by
  cases x with
  | none => rfl
  | some v => rw [pyOrQ_some_zero]; rfl

lemma days_bonus_spec (d : Option Int) :
    days_bonus d = (match d with
      | some t => if t ≤ 30 then 1 else if 30 < t ∧ t ≤ 365 then 1/2 else 0
      | none => 0) := by
  cases d with
  | none => rfl
  | some t =>
    simp only [days_bonus]
    split_ifs <;> first | rfl | (exfalso; omega)

lemma threat_score_eq_spec (m : Metrics) :
    threat_score m = spec_threat_score m := by
  unfold threat_score spec_threat_score diameter_base miss_bonus
  rw [pyOrQ_zero, days_bonus_spec]
  cases m.min_miss_km <;> cases m.days_to_soonest_approach <;> rfl

/-! ## C1: the threat classifier follows the documented scoring -/

/-- C1: `classify_threat` returns exactly the tier given by the documented
scoring (base 3/2/1 from diameter with null treated as 0, the tiered
miss-distance and day-window bonuses, thresholds 4/3/2), and in particular
diameter 0.35 km, miss 500,000 km, 10 days gives CRITICAL while diameter
0.02 km, miss 8,000,000 km, 400 days gives LOW. -/
theorem classify_threat_follows_spec :
    (∀ m : Metrics, classify_threat m = spec_threat_tier m) ∧
    classify_threat
      { diameter_km := some (35/100), is_hazardous := false,
        min_miss_km := some 500000, days_to_soonest_approach := some 10,
        soonest_approach_utc := none, max_rel_vel_kms := 0,
        absolute_magnitude_h := none } = ThreatLevel.CRITICAL ∧
    classify_threat
      { diameter_km := some (1/50), is_hazardous := false,
        min_miss_km := some 8000000, days_to_soonest_approach := some 400,
        soonest_approach_utc := none, max_rel_vel_kms := 0,
        absolute_magnitude_h := none } = ThreatLevel.LOW := by
  refine ⟨fun m => ?_, ?_, ?_⟩
  · unfold classify_threat spec_threat_tier tier_of_score
    rw [threat_score_eq_spec]
  · norm_num [classify_threat, tier_of_score, threat_score, diameter_base,
      miss_bonus, days_bonus, pyOrQ]
  · norm_num [classify_threat, tier_of_score, threat_score, diameter_base,
      miss_bonus, days_bonus, pyOrQ]

/-! ## C5: velocity-resolution precedence -/

/-- NeoRecord with no data at all, used as a concrete input. -/
def empty_neo : NeoRecord :=
  { diameter_min_km := none, diameter_max_km := none,
    is_potentially_hazardous := false, absolute_magnitude_h := none,
    close_approach_data := [] }

/-- C5 counterexample: an explicitly supplied velocity override of `0.0`
is NOT honoured — `_resolve_velocity_kms` tests the override with Python
truthiness (`if velocity_kms:`), so `0.0` falls through and the 20 km/s
default is returned instead of the override. -/
theorem resolve_velocity_override_cex :
    resolve_velocity_kms 0 empty_neo (some 0) = 20 ∧ (20 : ℚ) ≠ 0 := by
  exact ⟨by decide, by norm_num⟩

/-- C5 (amended): a supplied NONZERO velocity override is honoured; an
override of exactly 0 (or no override) falls through, via Python
truthiness, to the metrics maximum relative velocity when that is nonzero
and otherwise to the 20 km/s default.  (The `"min_rel_vel_kms"` key read
as a secondary fallback never exists in the metrics dict.) -/
theorem resolve_velocity_precedence (now : Int) (neo : NeoRecord)
    (vk : Option ℚ) :
    (∀ x, vk = some x → x ≠ 0 → resolve_velocity_kms now neo vk = x) ∧
    ((vk = none ∨ vk = some 0) →
      resolve_velocity_kms now neo vk =
        (if (compute_metrics now neo).max_rel_vel_kms = 0 then 20
         else (compute_metrics now neo).max_rel_vel_kms)) := by
  constructor
  · intro x hx hx0
    subst hx
    simp [resolve_velocity_kms, truthyQ, hx0]
  · rintro (rfl | rfl) <;>
      · simp only [resolve_velocity_kms, truthyQ]
        by_cases h : (compute_metrics now neo).max_rel_vel_kms = 0 <;>
          simp [h]

/-- Witness for the amended C5 statement at concrete inputs. -/
theorem resolve_velocity_precedence_witness :
    resolve_velocity_kms 0 empty_neo (some 7) = 7 ∧
    resolve_velocity_kms 0 empty_neo none = 20 := by
  constructor
  · exact (resolve_velocity_precedence 0 empty_neo (some 7)).1 7 rfl
      (by norm_num)
  · have h := (resolve_velocity_precedence 0 empty_neo none).2 (Or.inl rfl)
    rw [h]
    decide

/-! ## C6: the mitigation list always starts with the baseline -/

/-- C6: for every metrics dict (all-null included) and every threat level,
the suggestion list is non-empty, its first element is the baseline
orbital-monitoring suggestion, and that baseline is suitable for all four
threat levels. -/
theorem mitigation_list_baseline_first (m : Metrics) (level : ThreatLevel) :
    mitigation_suggestions m level ≠ [] ∧
    (mitigation_suggestions m level).head? = some baseline_suggestion ∧
    baseline_suggestion.suitable_for =
      [ThreatLevel.LOW, ThreatLevel.MODERATE, ThreatLevel.HIGH,
       ThreatLevel.CRITICAL] := by
  refine ⟨?_, ?_, ?_⟩
  · simp [mitigation_suggestions]
  · simp [mitigation_suggestions]
  · rfl

/-! ## C8: the seismic block -/

/-- C8: `_seismic_from_energy` returns a null moment magnitude exactly
when the kinetic energy is null, zero (falsy) or negative; for positive
kinetic energy `x` (and positive coupling `c`, the domain on which the
Python `math.log10` call is defined) it returns
`Mw = (log10(c*x) - 4.8) / 1.5` with seismic energy `c*x`. -/
theorem seismic_mw_null_iff (E : Option ℝ) (c : ℝ) (hc : 0 < c) :
    ((seismic_from_energy E c).Mw = none ↔
      E = none ∨ ∃ x, E = some x ∧ x ≤ 0) ∧
    (∀ x, E = some x → 0 < x →
      (seismic_from_energy E c).Mw =
        some ((Real.logb 10 (c * x) - 4.8) / 1.5) ∧
      (seismic_from_energy E c).E_s_j = some (c * x)) := by
  constructor
  · cases E with
    | none => simp [seismic_from_energy]
    | some e =>
      by_cases h : e ≤ 0
      · simp [seismic_from_energy, h]
      · simp [seismic_from_energy, h]
  · intro x hx hx0
    subst hx
    simp [seismic_from_energy, not_le.mpr hx0]

/-- Witness for C8 at kinetic energy 1 J and coupling 1. -/
theorem seismic_mw_null_iff_witness :
    (((seismic_from_energy (some 1) 1).Mw = none ↔
      (some (1 : ℝ) : Option ℝ) = none ∨
        ∃ x, (some (1 : ℝ) : Option ℝ) = some x ∧ x ≤ 0) ∧
    (∀ x, (some (1 : ℝ) : Option ℝ) = some x → 0 < x →
      (seismic_from_energy (some 1) 1).Mw =
        some ((Real.logb 10 ((1 : ℝ) * x) - 4.8) / 1.5) ∧
      (seismic_from_energy (some 1) 1).E_s_j = some ((1 : ℝ) * x))) :=
  seismic_mw_null_iff (some 1) 1 (by norm_num)

/-! ## C2 / C3: behaviour of the metrics-extraction loop -/

/-- Miss distances of the approach entries whose miss distance AND
relative velocity both parse (only those entries contribute to the
trackers, since a parse failure of either skips the entry). -/
def parsed_dists (l : List CloseApproach) : List ℚ :=
  l.filterMap (fun ap => match ap.miss_km, ap.rel_vel_kms with
    | some md, some _ => some md
    | _, _ => none)

/-- Relative velocities of the fully parseable approach entries. -/
def parsed_vels (l : List CloseApproach) : List ℚ :=
  l.filterMap (fun ap => match ap.miss_km, ap.rel_vel_kms with
    | some _, some rv => some rv
    | _, _ => none)

/-- Tracked timestamps of the fully parseable approach entries
(`entry_dt` substitutes `now` for a present-but-unparseable string). -/
def parsed_dts (now : Int) (l : List CloseApproach) : List Int :=
  l.filterMap (fun ap => match ap.miss_km, ap.rel_vel_kms with
    | some _, some _ => entry_dt now ap
    | _, _ => none)

/-- The parsed distances of a record's approach list. -/
def parsed_event_distances (neo : NeoRecord) : List ℚ :=
  parsed_dists neo.close_approach_data

/-- True minimum of a list of rationals (`none` for the empty list). -/
def list_min : List ℚ → Option ℚ
  | [] => none
  | x :: xs => match list_min xs with
    | none => some x
    | some y => some (min x y)

/-- True minimum of a list of integers (`none` for the empty list). -/
def list_min_int : List Int → Option Int
  | [] => none
  | x :: xs => match list_min_int xs with
    | none => some x
    | some y => some (min x y)

lemma ite_lt_eq_min {α : Type} [LinearOrder α] (a b : α) :
    (if a < b then a else b) = min b a := by
  rcases lt_or_ge a b with h | h
  · rw [if_pos h, min_eq_right h.le]
  · rw [if_neg (not_lt.mpr h), min_eq_left h]

lemma approach_foldl_min_miss (now : Int) :
    ∀ (l : List CloseApproach) (st : ApState),
      (l.foldl (approach_step now) st).min_miss =
        match st.min_miss, list_min (parsed_dists l) with
        | none, r => r
        | some c, none => some c
        | some c, some r => some (min c r) := by
  intro l
  induction l with
  | nil =>
    intro st
    cases h : st.min_miss <;> simp [parsed_dists, list_min, h]
  | cons a l ih =>
    intro st
    rcases hmd : a.miss_km with _ | md <;> rcases hrv : a.rel_vel_kms with _ | rv
    all_goals
      simp only [List.foldl_cons]
    case none.none | none.some | some.none =>
      have hstep : approach_step now st a = st := by
        simp [approach_step, hmd, hrv]
      have hpd : parsed_dists (a :: l) = parsed_dists l := by
        simp [parsed_dists, hmd, hrv]
      rw [hstep, hpd, ih st]
    case some.some =>
      have hpd : parsed_dists (a :: l) = md :: parsed_dists l := by
        simp [parsed_dists, hmd, hrv]
      rw [ih (approach_step now st a), hpd]
      have hmm : (approach_step now st a).min_miss =
          some (match st.min_miss with
            | none => md
            | some c => if md < c then md else c) := by
        simp [approach_step, hmd, hrv]
      rw [hmm]
      cases hsm : st.min_miss with
      | none =>
        cases hr : list_min (parsed_dists l) <;> simp [list_min, hr]
      | some c =>
        cases hr : list_min (parsed_dists l) with
        | none => simp [list_min, hr, ite_lt_eq_min]
        | some y => simp [list_min, hr, ite_lt_eq_min, min_assoc]

lemma approach_foldl_soonest (now : Int) :
    ∀ (l : List CloseApproach) (st : ApState),
      (l.foldl (approach_step now) st).soonest =
        match st.soonest, list_min_int (parsed_dts now l) with
        | none, r => r
        | some c, none => some c
        | some c, some r => some (min c r) := by
  intro l
  induction l with
  | nil =>
    intro st
    cases h : st.soonest <;> simp [parsed_dts, list_min_int, h]
  | cons a l ih =>
    intro st
    rcases hmd : a.miss_km with _ | md <;> rcases hrv : a.rel_vel_kms with _ | rv
    all_goals
      simp only [List.foldl_cons]
    case none.none | none.some | some.none =>
      have hstep : approach_step now st a = st := by
        simp [approach_step, hmd, hrv]
      have hpd : parsed_dts now (a :: l) = parsed_dts now l := by
        simp [parsed_dts, hmd, hrv]
      rw [hstep, hpd, ih st]
    case some.some =>
      rw [ih (approach_step now st a)]
      cases hdt : entry_dt now a with
      | none =>
        have hpd : parsed_dts now (a :: l) = parsed_dts now l := by
          simp [parsed_dts, hmd, hrv, hdt]
        have hsn : (approach_step now st a).soonest = st.soonest := by
          simp [approach_step, hmd, hrv, hdt]
        rw [hpd, hsn]
      | some d =>
        have hpd : parsed_dts now (a :: l) = d :: parsed_dts now l := by
          simp [parsed_dts, hmd, hrv, hdt]
        have hsn : (approach_step now st a).soonest =
            some (match st.soonest with
              | none => d
              | some s => if d < s then d else s) := by
          cases hss : st.soonest with
          | none => simp [approach_step, hmd, hrv, hdt, hss]
          | some s =>
            simp only [approach_step, hmd, hrv, hdt, hss]
            split_ifs <;> rfl
        rw [hpd, hsn]
        cases hss : st.soonest with
        | none =>
          cases hr : list_min_int (parsed_dts now l) <;>
            simp [list_min_int, hr]
        | some c =>
          cases hr : list_min_int (parsed_dts now l) with
          | none => simp [list_min_int, hr, ite_lt_eq_min]
          | some y => simp [list_min_int, hr, ite_lt_eq_min, min_assoc]

lemma approach_foldl_max_vel (now : Int) :
    ∀ (l : List CloseApproach) (st : ApState),
      (l.foldl (approach_step now) st).max_vel =
        (parsed_vels l).foldl (fun c rv => if rv > c then rv else c)
          st.max_vel := by
  intro l
  induction l with
  | nil => intro st; simp [parsed_vels]
  | cons a l ih =>
    intro st
    rcases hmd : a.miss_km with _ | md <;> rcases hrv : a.rel_vel_kms with _ | rv
    all_goals
      simp only [List.foldl_cons]
    case none.none | none.some | some.none =>
      have hstep : approach_step now st a = st := by
        simp [approach_step, hmd, hrv]
      have hpv : parsed_vels (a :: l) = parsed_vels l := by
        simp [parsed_vels, hmd, hrv]
      rw [hstep, hpv, ih st]
    case some.some =>
      have hpv : parsed_vels (a :: l) = rv :: parsed_vels l := by
        simp [parsed_vels, hmd, hrv]
      have hmv : (approach_step now st a).max_vel =
          if rv > st.max_vel then rv else st.max_vel := by
        simp [approach_step, hmd, hrv]
      rw [ih (approach_step now st a), hpv, hmv]
      simp

lemma parsed_vels_nil_of_dists_nil {l : List CloseApproach}
    (h : parsed_dists l = []) : parsed_vels l = [] := by
  induction l with
  | nil => rfl
  | cons a l ih =>
    rcases hmd : a.miss_km with _ | md <;>
      rcases hrv : a.rel_vel_kms with _ | rv
    all_goals
      simp only [parsed_dists, List.filterMap_cons, hmd, hrv] at h
    case none.none | none.some | some.none =>
      simp only [parsed_vels, List.filterMap_cons, hmd, hrv]
      exact ih h
    case some.some => exact absurd h (List.cons_ne_nil _ _)

lemma compute_metrics_min_miss_eq (now : Int) (neo : NeoRecord) :
    (compute_metrics now neo).min_miss_km =
      list_min (parsed_event_distances neo) :=
  approach_foldl_min_miss now neo.close_approach_data ⟨none, none, 0⟩

lemma compute_metrics_max_vel_eq (now : Int) (neo : NeoRecord) :
    (compute_metrics now neo).max_rel_vel_kms =
      (parsed_vels neo.close_approach_data).foldl
        (fun c rv => if rv > c then rv else c) 0 :=
  approach_foldl_max_vel now neo.close_approach_data ⟨none, none, 0⟩

lemma compute_metrics_soonest_eq (now : Int) (neo : NeoRecord) :
    (compute_metrics now neo).soonest_approach_utc =
      list_min_int (parsed_dts now neo.close_approach_data) :=
  approach_foldl_soonest now neo.close_approach_data ⟨none, none, 0⟩

/-- C2: if at least one close-approach event has a parseable miss distance
and relative velocity, `min_miss_km` equals the true minimum of the parsed
distances (and is non-null); if zero events parse, `min_miss_km` is null
and `max_rel_vel_kms` is the asymmetric default `0.0`. -/
theorem compute_metrics_min_miss_spec (now : Int) (neo : NeoRecord) :
    (parsed_event_distances neo ≠ [] →
      (compute_metrics now neo).min_miss_km =
        list_min (parsed_event_distances neo) ∧
      (compute_metrics now neo).min_miss_km ≠ none) ∧
    (parsed_event_distances neo = [] →
      (compute_metrics now neo).min_miss_km = none ∧
      (compute_metrics now neo).max_rel_vel_kms = 0) := by
  have hmin := approach_foldl_min_miss now neo.close_approach_data
    ⟨none, none, 0⟩
  have hvel := approach_foldl_max_vel now neo.close_approach_data
    ⟨none, none, 0⟩
  have hm : (compute_metrics now neo).min_miss_km =
      list_min (parsed_event_distances neo) := hmin
  have hv : (compute_metrics now neo).max_rel_vel_kms =
      (parsed_vels neo.close_approach_data).foldl
        (fun c rv => if rv > c then rv else c) 0 := hvel
  constructor
  · intro hne
    refine ⟨hm, ?_⟩
    rw [hm]
    cases hpd : parsed_event_distances neo with
    | nil => exact absurd hpd hne
    | cons x xs =>
      cases h : list_min xs <;> simp [list_min, h]
  · intro hnil
    refine ⟨by rw [hm, hnil]; rfl, ?_⟩
    rw [hv, parsed_vels_nil_of_dists_nil hnil]
    rfl

/-- A record with two fully parseable approach events (distances 5 and 3). -/
def two_event_neo : NeoRecord :=
  { diameter_min_km := none
    diameter_max_km := none
    is_potentially_hazardous := false
    absolute_magnitude_h := none
    close_approach_data :=
      [{ miss_km := some 5
         rel_vel_kms := some 2
         dt_present := false
         dt_parse := none },
       { miss_km := some 3
         rel_vel_kms := some 1
         dt_present := false
         dt_parse := none }] }

/-- A record whose single approach event has an unparseable miss
distance. -/
def no_parse_neo : NeoRecord :=
  { diameter_min_km := none
    diameter_max_km := none
    is_potentially_hazardous := false
    absolute_magnitude_h := none
    close_approach_data :=
      [{ miss_km := none
         rel_vel_kms := some 9
         dt_present := false
         dt_parse := none }] }

/-- Witness for C2: a record with two parseable events (distances 5 and 3)
gets `min_miss_km = 3`, and a record whose single event has an
unparseable miss distance gets a null `min_miss_km` and velocity `0.0`. -/
theorem compute_metrics_min_miss_spec_witness :
    (compute_metrics 0 two_event_neo).min_miss_km = some 3 ∧
    ((compute_metrics 0 no_parse_neo).min_miss_km = none ∧
     (compute_metrics 0 no_parse_neo).max_rel_vel_kms = 0) := by
  constructor
  · have h := (compute_metrics_min_miss_spec 0 two_event_neo).1 (by decide)
    rw [h.1]
    decide
  · exact (compute_metrics_min_miss_spec 0 no_parse_neo).2 (by decide)

/-- The record used to refute C3: one approach entry with parseable miss
distance and velocity but a present, unparseable timestamp string. -/
def bad_ts_neo : NeoRecord :=
  { diameter_min_km := none, diameter_max_km := none,
    is_potentially_hazardous := false, absolute_magnitude_h := none,
    close_approach_data :=
      [{ miss_km := some 100, rel_vel_kms := some 5, dt_present := true,
         dt_parse := none }] }

/-- C3 counterexample: with `now = 1000`, the entry's unparseable
timestamp is NOT skipped — `_parse_iso` substitutes the current time, so
the soonest-approach value becomes `now` itself instead of staying null
(the claim says timestamp tracking is skipped on parse failure). -/
theorem compute_metrics_timestamp_cex :
    (compute_metrics 1000 bad_ts_neo).soonest_approach_utc = some 1000 ∧
    (compute_metrics 1000 bad_ts_neo).soonest_approach_utc ≠ none ∧
    (compute_metrics 1000 bad_ts_neo).min_miss_km = some 100 := by
  refine ⟨by decide, by decide, by decide⟩

/-- `neo` with the timestamp fields of every approach entry erased. -/
def strip_timestamps (neo : NeoRecord) : NeoRecord :=
  { neo with
    close_approach_data :=
      neo.close_approach_data.map (fun ap =>
        { ap with dt_present := false, dt_parse := none }) }

lemma parsed_dists_strip (l : List CloseApproach) :
    parsed_dists (l.map (fun ap =>
      { ap with dt_present := false, dt_parse := none })) =
    parsed_dists l := by
  induction l with
  | nil => rfl
  | cons a l ih =>
    rcases hmd : a.miss_km with _ | md <;>
      rcases hrv : a.rel_vel_kms with _ | rv <;>
      simp [parsed_dists, hmd, hrv] at ih ⊢ <;> exact ih

lemma parsed_vels_strip (l : List CloseApproach) :
    parsed_vels (l.map (fun ap =>
      { ap with dt_present := false, dt_parse := none })) =
    parsed_vels l := by
  induction l with
  | nil => rfl
  | cons a l ih =>
    rcases hmd : a.miss_km with _ | md <;>
      rcases hrv : a.rel_vel_kms with _ | rv <;>
      simp [parsed_vels, hmd, hrv] at ih ⊢ <;> exact ih

/-- C3 (amended): miss-distance/velocity extraction is independent of the
timestamp fields (an entry with a valid distance still contributes even if
its timestamp is unparseable), but timestamp parsing never "fails": a
present, unparseable timestamp string is replaced by the current time
`now`, which then competes as a soonest-approach candidate — so the
soonest approach is the minimum of `entry_dt` over the fully parseable
entries, where `entry_dt` substitutes `now` on parse failure. -/
theorem compute_metrics_timestamp_amended (now : Int) (neo : NeoRecord) :
    (compute_metrics now neo).min_miss_km =
      (compute_metrics now (strip_timestamps neo)).min_miss_km ∧
    (compute_metrics now neo).max_rel_vel_kms =
      (compute_metrics now (strip_timestamps neo)).max_rel_vel_kms ∧
    (compute_metrics now neo).soonest_approach_utc =
      list_min_int (parsed_dts now neo.close_approach_data) := by
  refine ⟨?_, ?_, ?_⟩
  · simp only [compute_metrics_min_miss_eq, parsed_event_distances]
    have hl : (strip_timestamps neo).close_approach_data =
        neo.close_approach_data.map (fun ap =>
          { ap with dt_present := false, dt_parse := none }) := rfl
    rw [hl, parsed_dists_strip]
  · simp only [compute_metrics_max_vel_eq]
    have hl : (strip_timestamps neo).close_approach_data =
        neo.close_approach_data.map (fun ap =>
          { ap with dt_present := false, dt_parse := none }) := rfl
    rw [hl, parsed_vels_strip]
  · exact compute_metrics_soonest_eq now neo

/-! ## C7: monotonicity of the threat classifier -/

/-- Ordinal rank of the threat tiers (LOW < MODERATE < HIGH < CRITICAL). -/
def ThreatLevel.rank : ThreatLevel → ℕ
  | .LOW => 0
  | .MODERATE => 1
  | .HIGH => 2
  | .CRITICAL => 3

lemma diameter_base_mono {d₁ d₂ : ℚ} (h : d₁ ≤ d₂) :
    diameter_base d₁ ≤ diameter_base d₂ := by
  unfold diameter_base
  split_ifs <;> try norm_num
  all_goals linarith

lemma miss_bonus_anti {x₁ x₂ : ℚ} (h : x₁ ≤ x₂) :
    miss_bonus (some x₂) ≤ miss_bonus (some x₁) := by
  simp only [miss_bonus]
  split_ifs <;> try norm_num
  all_goals linarith

lemma days_bonus_anti {t₁ t₂ : Int} (h : t₁ ≤ t₂) :
    days_bonus (some t₂) ≤ days_bonus (some t₁) := by
  simp only [days_bonus]
  split_ifs <;> try norm_num
  all_goals omega

lemma tier_rank_mono {s₁ s₂ : ℚ} (h : s₁ ≤ s₂) :
    (tier_of_score s₁).rank ≤ (tier_of_score s₂).rank := by
  unfold tier_of_score
  split_ifs <;> simp [ThreatLevel.rank] <;> linarith

/-- C7: `classify_threat` is monotone non-decreasing in diameter and
monotone non-increasing in `min_miss_km` and in
`days_to_soonest_approach`, holding the other inputs fixed and varying the
chosen input over non-null values, with respect to the tier order
LOW < MODERATE < HIGH < CRITICAL. -/
theorem classify_threat_monotone :
    (∀ (m : Metrics) (d₁ d₂ : ℚ), d₁ ≤ d₂ →
      (classify_threat { m with diameter_km := some d₁ }).rank ≤
      (classify_threat { m with diameter_km := some d₂ }).rank) ∧
    (∀ (m : Metrics) (x₁ x₂ : ℚ), x₁ ≤ x₂ →
      (classify_threat { m with min_miss_km := some x₂ }).rank ≤
      (classify_threat { m with min_miss_km := some x₁ }).rank) ∧
    (∀ (m : Metrics) (t₁ t₂ : Int), t₁ ≤ t₂ →
      (classify_threat { m with days_to_soonest_approach := some t₂ }).rank ≤
      (classify_threat { m with days_to_soonest_approach := some t₁ }).rank)
    := by
  refine ⟨?_, ?_, ?_⟩
  · intro m d₁ d₂ h
    apply tier_rank_mono
    simp only [threat_score, pyOrQ_some_zero]
    have := diameter_base_mono h
    gcongr
  · intro m x₁ x₂ h
    apply tier_rank_mono
    simp only [threat_score]
    have := miss_bonus_anti h
    gcongr
  · intro m t₁ t₂ h
    apply tier_rank_mono
    simp only [threat_score]
    have := days_bonus_anti h
    gcongr

/-- All-null metrics dict, used as a concrete input. -/
def empty_metrics : Metrics :=
  { diameter_km := none, is_hazardous := false, min_miss_km := none,
    days_to_soonest_approach := none, soonest_approach_utc := none,
    max_rel_vel_kms := 0, absolute_magnitude_h := none }

/-- Witness for C7 at concrete inputs (diameter 0.1 vs 0.4 km; miss
500,000 vs 6,000,000 km; 10 vs 500 days). -/
theorem classify_threat_monotone_witness :
    ((classify_threat { empty_metrics with diameter_km := some (1/10) }).rank ≤
      (classify_threat { empty_metrics with diameter_km := some (2/5) }).rank) ∧
    ((classify_threat { empty_metrics with min_miss_km := some 6000000 }).rank ≤
      (classify_threat { empty_metrics with min_miss_km := some 500000 }).rank) ∧
    ((classify_threat
        { empty_metrics with days_to_soonest_approach := some 500 }).rank ≤
      (classify_threat
        { empty_metrics with days_to_soonest_approach := some 10 }).rank) :=
  ⟨classify_threat_monotone.1 empty_metrics (1/10) (2/5) (by norm_num),
   classify_threat_monotone.2.1 empty_metrics 500000 6000000 (by norm_num),
   classify_threat_monotone.2.2 empty_metrics 10 500 (by norm_num)⟩

/-! ## C9 / C10: the physical-parameter resolver -/

lemma enrich_step_sbdb_keeps (r : PhysProfile) (sb : SbdbPhys)
    (hd : r.density_g_cm3 ≠ none) (hs : r.source ≠ none) :
    (enrich_step_sbdb r sb).density_g_cm3 = r.density_g_cm3 ∧
    (enrich_step_sbdb r sb).source = r.source := by
  unfold enrich_step_sbdb
  split
  case isFalse h => exact ⟨rfl, rfl⟩
  case isTrue h =>
    dsimp only
    split
    case isTrue h2 => exact absurd h2.2 hs
    case isFalse h2 =>
      constructor
      · obtain ⟨d, hd2⟩ := Option.ne_none_iff_exists'.mp hd
        simp [hd2]
      · rfl

lemma enrich_step_diameter_ctx_keeps (r : PhysProfile)
    (ctx : Option NeoRecord) :
    (enrich_step_diameter_ctx r ctx).density_g_cm3 = r.density_g_cm3 ∧
    (enrich_step_diameter_ctx r ctx).source = r.source := by
  unfold enrich_step_diameter_ctx
  repeat' split
  all_goals exact ⟨rfl, rfl⟩

lemma enrich_step_diameter_H_keeps (r : PhysProfile)
    (ctx : Option NeoRecord) :
    (enrich_step_diameter_H r ctx).density_g_cm3 = r.density_g_cm3 ∧
    (enrich_step_diameter_H r ctx).source = r.source := by
  unfold enrich_step_diameter_H
  repeat' split
  all_goals exact ⟨rfl, rfl⟩

lemma enrich_step_density_keeps (r : PhysProfile)
    (hd : r.density_g_cm3 ≠ none) :
    (enrich_step_density r).density_g_cm3 = r.density_g_cm3 ∧
    (enrich_step_density r).source = r.source := by
  unfold enrich_step_density
  rw [if_neg hd]
  exact ⟨rfl, rfl⟩

lemma enrich_step_density_total (r : PhysProfile) :
    (enrich_step_density r).density_g_cm3 ≠ none := by
  unfold enrich_step_density
  split
  case isTrue h =>
    dsimp only
    split <;> simp
  case isFalse h => exact h

lemma enrich_step_mass_keeps (r : PhysProfile) :
    (enrich_step_mass r).density_g_cm3 = r.density_g_cm3 ∧
    (enrich_step_mass r).source = r.source := by
  unfold enrich_step_mass
  repeat' split
  all_goals exact ⟨rfl, rfl⟩

lemma enrich_step_source_density (r : PhysProfile) :
    (enrich_step_source r).density_g_cm3 = r.density_g_cm3 := by
  unfold enrich_step_source
  split <;> rfl

lemma enrich_step_source_keeps_source (r : PhysProfile)
    (hs : r.source ≠ none) :
    (enrich_step_source r).source = r.source := by
  unfold enrich_step_source
  split
  case isTrue h => exact absurd h hs
  case isFalse h => rfl

lemma enrich_step_source_total (r : PhysProfile) :
    (enrich_step_source r).source ≠ none := by
  unfold enrich_step_source
  split
  case isTrue h => simp
  case isFalse h => exact h

/-- Catalog-A (SsODNet) extraction whose only datum is a density of
exactly 0: non-null, but falsy for the `any([...])` gate of step 1. -/
def zero_density_ssod : SsodPhys :=
  { diameter_km := none
    mass_kg := none
    density_g_cm3 := some 0
    taxonomy := none
    bibcode := none }

/-- Catalog-B (SBDB) extraction with density 1.3 g/cm³. -/
def cex_sbdb : SbdbPhys :=
  { diameter_km := none
    mass_kg := none
    density_g_cm3 := some (13/10) }

lemma enrich_cex_value :
    enrich_by_label (some zero_density_ssod) cex_sbdb none =
      ⟨some "sbdb", none, some (13/10), none, none, none⟩ := by
  unfold enrich_by_label
  have h1 : enrich_step_ssod (some zero_density_ssod) =
      ⟨none, none, none, none, none, none⟩ := rfl
  rw [h1]
  have h2 : enrich_step_sbdb
      (⟨none, none, none, none, none, none⟩ : PhysProfile) cex_sbdb =
      ⟨some "sbdb", none, some (13/10), none, none, none⟩ := by
    unfold enrich_step_sbdb cex_sbdb
    norm_num [truthyQ, truthyR]
  rw [h2]
  have h3 : enrich_step_diameter_ctx
      (⟨some "sbdb", none, some (13/10), none, none, none⟩ : PhysProfile)
      none =
      ⟨some "sbdb", none, some (13/10), none, none, none⟩ := by
    simp [enrich_step_diameter_ctx]
  rw [h3]
  have h4 : enrich_step_diameter_H
      (⟨some "sbdb", none, some (13/10), none, none, none⟩ : PhysProfile)
      none =
      ⟨some "sbdb", none, some (13/10), none, none, none⟩ := by
    simp [enrich_step_diameter_H, estimate_diameter_from_H]
  rw [h4]
  have h5 : enrich_step_density
      (⟨some "sbdb", none, some (13/10), none, none, none⟩ : PhysProfile) =
      ⟨some "sbdb", none, some (13/10), none, none, none⟩ := by
    simp [enrich_step_density]
  rw [h5]
  have h6 : enrich_step_mass
      (⟨some "sbdb", none, some (13/10), none, none, none⟩ : PhysProfile) =
      ⟨some "sbdb", none, some (13/10), none, none, none⟩ := by
    simp [enrich_step_mass, truthyR]
  rw [h6]
  simp [enrich_step_source]

/-- C9 counterexample: catalog A yields a non-null density (exactly 0.0)
and catalog B yields a different non-null density (1.3), yet the resolved
density is catalog B's value and the source tag is `"sbdb"`, because the
`any([...])` gate of step 1 treats a response whose mass/density/diameter
are all falsy as empty and discards it. -/
theorem enrich_provider_priority_cex :
    (enrich_by_label (some zero_density_ssod) cex_sbdb none).density_g_cm3 =
      some (13/10) ∧
    (enrich_by_label (some zero_density_ssod) cex_sbdb none).source =
      some "sbdb" ∧
    (zero_density_ssod.density_g_cm3 = some 0 ∧
      cex_sbdb.density_g_cm3 = some (13/10) ∧ (0 : ℚ) ≠ 13/10) := by
  refine ⟨by rw [enrich_cex_value], by rw [enrich_cex_value], rfl, rfl,
    by norm_num⟩

/-- C9 (amended): if catalog A's extracted data contains at least one
truthy (nonzero) value among mass/density/diameter — in particular
whenever A's density is nonzero — and A's density is non-null while B's is
a different non-null value, then the resolved density is A's and the
source tag is `"ssodnet"`; no lower-priority provider or fallback
overwrites them (first-write-wins per field).  Only in the degenerate case
where all three of A's extracted numeric fields are null or zero is A's
response discarded and B's density and tag used. -/
theorem enrich_provider_priority_amended (sp : SsodPhys) (sb : SbdbPhys)
    (ctx : Option NeoRecord) (a b : ℚ)
    (hA : sp.density_g_cm3 = some a)
    (hAny : truthyQ sp.mass_kg ∨ truthyQ sp.density_g_cm3 ∨
      truthyQ sp.diameter_km)
    (hB : sb.density_g_cm3 = some b) (hab : a ≠ b) :
    (enrich_by_label (some sp) sb ctx).density_g_cm3 = some a ∧
    (enrich_by_label (some sp) sb ctx).source = some "ssodnet" := by
  unfold enrich_by_label
  have h1 : enrich_step_ssod (some sp) =
      { source := some "ssodnet"
        mass_kg := sp.mass_kg.map (fun q : ℚ => (q : ℝ))
        density_g_cm3 := sp.density_g_cm3
        diameter_km := sp.diameter_km.map (fun q : ℚ => (q : ℝ))
        taxonomy := sp.taxonomy
        bibcode := sp.bibcode } := by
    simp only [enrich_step_ssod]
    rw [if_pos hAny]
  have h1d : (enrich_step_ssod (some sp)).density_g_cm3 = some a := by
    rw [h1]
    exact hA
  have h1s : (enrich_step_ssod (some sp)).source = some "ssodnet" := by
    rw [h1]
  obtain ⟨h2d, h2s⟩ := enrich_step_sbdb_keeps (enrich_step_ssod (some sp)) sb
    (by simp [h1d]) (by simp [h1s])
  obtain ⟨h3d, h3s⟩ := enrich_step_diameter_ctx_keeps
    (enrich_step_sbdb (enrich_step_ssod (some sp)) sb) ctx
  obtain ⟨h4d, h4s⟩ := enrich_step_diameter_H_keeps
    (enrich_step_diameter_ctx
      (enrich_step_sbdb (enrich_step_ssod (some sp)) sb) ctx) ctx
  obtain ⟨h5d, h5s⟩ := enrich_step_density_keeps
    (enrich_step_diameter_H
      (enrich_step_diameter_ctx
        (enrich_step_sbdb (enrich_step_ssod (some sp)) sb) ctx) ctx)
    (by rw [h4d, h3d, h2d, h1d]; simp)
  obtain ⟨h6d, h6s⟩ := enrich_step_mass_keeps
    (enrich_step_density
      (enrich_step_diameter_H
        (enrich_step_diameter_ctx
          (enrich_step_sbdb (enrich_step_ssod (some sp)) sb) ctx) ctx))
  have h7d := enrich_step_source_density
    (enrich_step_mass
      (enrich_step_density
        (enrich_step_diameter_H
          (enrich_step_diameter_ctx
            (enrich_step_sbdb (enrich_step_ssod (some sp)) sb) ctx) ctx)))
  have h7s := enrich_step_source_keeps_source
    (enrich_step_mass
      (enrich_step_density
        (enrich_step_diameter_H
          (enrich_step_diameter_ctx
            (enrich_step_sbdb (enrich_step_ssod (some sp)) sb) ctx) ctx)))
    (by rw [h6s, h5s, h4s, h3s, h2s, h1s]; simp)
  constructor
  · rw [h7d, h6d, h5d, h4d, h3d, h2d, h1d]
  · rw [h7s, h6s, h5s, h4s, h3s, h2s, h1s]

/-- Witness for the amended C9 statement: A's density 3.3 (nonzero),
B's density 1.3 — the resolved profile keeps A's density and tag. -/
theorem enrich_provider_priority_amended_witness :
    (enrich_by_label
      (some { diameter_km := none
              mass_kg := none
              density_g_cm3 := some (33/10)
              taxonomy := none
              bibcode := none }) cex_sbdb none).density_g_cm3 =
        some (33/10) ∧
    (enrich_by_label
      (some { diameter_km := none
              mass_kg := none
              density_g_cm3 := some (33/10)
              taxonomy := none
              bibcode := none }) cex_sbdb none).source = some "ssodnet" :=
  enrich_provider_priority_amended
    { diameter_km := none
      mass_kg := none
      density_g_cm3 := some (33/10)
      taxonomy := none
      bibcode := none } cex_sbdb none (33/10) (13/10) rfl
    (Or.inr (Or.inl (by norm_num [truthyQ]))) rfl (by norm_num)

/-- C10: for every combination of provider responses (total provider
failure and absent NEO context included) the resolver's output has a
non-null density (taxonomy lookup or configured default) and a non-null
source tag (`"estimate"` when no external provider contributed). -/
theorem enrich_density_source_total (ssod : Option SsodPhys)
    (sb : SbdbPhys) (ctx : Option NeoRecord) :
    (enrich_by_label ssod sb ctx).density_g_cm3 ≠ none ∧
    (enrich_by_label ssod sb ctx).source ≠ none := by
  constructor
  · show (enrich_step_source _).density_g_cm3 ≠ none
    rw [enrich_step_source_density, (enrich_step_mass_keeps _).1]
    exact enrich_step_density_total _
  · exact enrich_step_source_total _

/-! ## C4: presence of the ocean block -/

lemma compute_metrics_max_vel_nonneg (now : Int) (neo : NeoRecord) :
    0 ≤ (compute_metrics now neo).max_rel_vel_kms := by
  rw [compute_metrics_max_vel_eq]
  suffices h : ∀ (l : List ℚ) (c : ℚ), 0 ≤ c →
      0 ≤ l.foldl (fun c rv => if rv > c then rv else c) c from
    h _ 0 le_rfl
  intro l
  induction l with
  | nil => intro c hc; simpa using hc
  | cons x xs ih =>
    intro c hc
    simp only [List.foldl_cons]
    apply ih
    split_ifs with h
    · exact le_of_lt (lt_of_le_of_lt hc h)
    · exact hc

lemma resolve_velocity_pos (now : Int) (neo : NeoRecord) (vk : Option ℚ)
    (hvk : ∀ x, vk = some x → 0 ≤ x) :
    0 < resolve_velocity_kms now neo vk := by
  unfold resolve_velocity_kms
  split_ifs with h1
  · cases hv : vk with
    | none => rw [hv] at h1; exact absurd h1 (by simp [truthyQ])
    | some x =>
      rw [hv] at h1
      simp only [Option.getD_some]
      rcases lt_or_eq_of_le (hvk x hv) with h | h
      · exact h
      · exact absurd h.symm h1
  · dsimp only
    split_ifs with h2
    · exact lt_of_le_of_ne (compute_metrics_max_vel_nonneg now neo)
        (Ne.symm h2)
    · norm_num

lemma pyOrR_pos_of_nonneg (x : Option ℝ) (d : ℝ) (hd : 0 < d)
    (hx : ∀ v, x = some v → 0 ≤ v) : 0 < pyOrR x d := by
  unfold pyOrR
  split_ifs with h
  · cases hx0 : x with
    | none => rw [hx0] at h; exact absurd h (by simp [truthyR])
    | some v =>
      rw [hx0] at h
      simp only [Option.getD_some]
      rcases lt_or_eq_of_le (hx v hx0) with h' | h'
      · exact h'
      · exact absurd h'.symm h
  · exact hd

lemma TARGET_RHO_pos (s : String) : 0 < TARGET_RHO s := by
  unfold TARGET_RHO
  split_ifs <;> norm_num

lemma diameter_from_neows_pos (neo : NeoRecord)
    (hnmin : ∀ x, neo.diameter_min_km = some x → 0 < x)
    (hnmax : ∀ x, neo.diameter_max_km = some x → 0 < x) :
    ∀ q, diameter_from_neows neo = some q → 0 < q := by
  unfold diameter_from_neows
  intro q hq
  dsimp only at hq
  split_ifs at hq with h1 h2
  · obtain ⟨hm, hM⟩ := h1
    cases hmin : neo.diameter_min_km with
    | none => rw [hmin] at hm; exact absurd hm (by simp [truthyQ])
    | some m =>
      cases hmax : neo.diameter_max_km with
      | none => rw [hmax] at hM; exact absurd hM (by simp [truthyQ])
      | some M =>
        rw [hmin, hmax] at hq
        simp only [Option.getD_some, Option.some.injEq] at hq
        have hm1 := hnmin m hmin
        have hM1 := hnmax M hmax
        rw [← hq]
        linarith
  · exact hnmax q hq
  · exact hnmin q hq

lemma estimate_diameter_from_H_pos (H : Option ℚ) (pV : ℚ) :
    ∀ x, estimate_diameter_from_H H pV = some x → 0 < x := by
  intro x hx
  cases H with
  | none => exact absurd hx (by simp [estimate_diameter_from_H])
  | some Hn =>
    simp only [estimate_diameter_from_H] at hx
    split_ifs at hx with h
    rw [Option.some_inj] at hx
    subst hx
    push_neg at h
    have h1 : (0 : ℝ) < (pV : ℝ) ^ ((1 : ℝ)/2) :=
      Real.rpow_pos_of_pos (by exact_mod_cast h) _
    have h2 : (0 : ℝ) < (10 : ℝ) ^ (-(Hn : ℝ) / 5) :=
      Real.rpow_pos_of_pos (by norm_num) _
    exact mul_pos (div_pos (by norm_num) h1) h2

lemma resolve_diameter_pos (neo : NeoRecord) (enr : Option PhysProfile)
    (odk : Option ℚ)
    (hodk : ∀ x, odk = some x → 0 < x)
    (henr_d : ∀ e, enr = some e → ∀ x, e.diameter_km = some x → 0 < x)
    (hnmin : ∀ x, neo.diameter_min_km = some x → 0 < x)
    (hnmax : ∀ x, neo.diameter_max_km = some x → 0 < x) :
    ∀ x, resolve_diameter_km neo enr odk = some x → 0 < x := by
  intro x hx
  cases hod : odk with
  | some d =>
    rw [hod] at hx
    simp only [resolve_diameter_km, Option.some.injEq] at hx
    rw [← hx]
    exact_mod_cast hodk d hod
  | none =>
    rw [hod] at hx
    simp only [resolve_diameter_km] at hx
    cases he : enr with
    | some e =>
      rw [he] at hx
      dsimp only at hx
      by_cases ht : truthyR e.diameter_km
      · rw [if_pos ht] at hx
        cases hed : e.diameter_km with
        | none => rw [hed] at ht; exact absurd ht (by simp [truthyR])
        | some y =>
          rw [hed] at hx
          simp only [Option.some.injEq] at hx
          rw [← hx]
          exact henr_d e he y hed
      · rw [if_neg ht] at hx
        dsimp only at hx
        cases hdn : diameter_from_neows neo with
        | some q =>
          rw [hdn] at hx
          simp only [Option.some.injEq] at hx
          rw [← hx]
          exact_mod_cast diameter_from_neows_pos neo hnmin hnmax q hdn
        | none =>
          rw [hdn] at hx
          exact estimate_diameter_from_H_pos _ _ x hx
    | none =>
      rw [he] at hx
      dsimp only at hx
      cases hdn : diameter_from_neows neo with
      | some q =>
        rw [hdn] at hx
        simp only [Option.some.injEq] at hx
        rw [← hx]
        exact_mod_cast diameter_from_neows_pos neo hnmin hnmax q hdn
      | none =>
        rw [hdn] at hx
        exact estimate_diameter_from_H_pos _ _ x hx

lemma sin_radians_pos {θ : ℝ} (hθ1 : 1 ≤ θ) (hθ2 : θ ≤ 90) :
    0 < Real.sin (θ * Real.pi / 180) := by
  apply Real.sin_pos_of_pos_of_lt_pi
  · positivity
  · have hπ : 0 < Real.pi := Real.pi_pos
    nlinarith

lemma crater_transient_none_iff (L : Option ℝ) (v ρi ρt θ : ℝ)
    (hv : v ≠ 0) (hρi : ρi ≠ 0) (hρt : ρt ≠ 0) (hθ : θ ≠ 0)
    (hL : ∀ x, L = some x → 0 < x) :
    crater_transient_diameter_m L v ρi ρt θ = none ↔ L = none := by
  unfold crater_transient_diameter_m
  cases hl : L with
  | none => simp
  | some x =>
    have hx := hL x hl
    dsimp only
    rw [if_neg]
    · simp
    · push_neg
      exact ⟨ne_of_gt hx, hv, hρi, hρt, hθ⟩

lemma crater_transient_pos (L : Option ℝ) (v ρi ρt θ : ℝ)
    (hv : 0 < v) (hρi : 0 < ρi) (hρt : 0 < ρt)
    (hθ1 : 1 ≤ θ) (hθ2 : θ ≤ 90)
    (hL : ∀ x, L = some x → 0 < x) :
    ∀ d, crater_transient_diameter_m L v ρi ρt θ = some d → 0 < d := by
  unfold crater_transient_diameter_m
  intro d hd
  cases hl : L with
  | none =>
    rw [hl] at hd
    exact absurd hd (by simp)
  | some x =>
    have hx := hL x hl
    have hguard : ¬(x = 0 ∨ v = 0 ∨ ρi = 0 ∨ ρt = 0 ∨ θ = 0) := by
      push_neg
      exact ⟨ne_of_gt hx, ne_of_gt hv, ne_of_gt hρi, ne_of_gt hρt,
        ne_of_gt (lt_of_lt_of_le one_pos hθ1)⟩
    rw [hl] at hd
    dsimp only at hd
    rw [if_neg hguard] at hd
    rw [Option.some_inj] at hd
    subst hd
    have hG : (0 : ℝ) < G_EARTH := by unfold G_EARTH; norm_num
    have hsin := sin_radians_pos hθ1 hθ2
    have p1 : (0 : ℝ) < (ρi / ρt) ^ ((1 : ℝ)/3) :=
      Real.rpow_pos_of_pos (div_pos hρi hρt) _
    have p2 : (0 : ℝ) < x ^ (0.78 : ℝ) := Real.rpow_pos_of_pos hx _
    have p3 : (0 : ℝ) < v ^ (0.44 : ℝ) := Real.rpow_pos_of_pos hv _
    have p4 : (0 : ℝ) < G_EARTH ^ (-(0.22 : ℝ)) :=
      Real.rpow_pos_of_pos hG _
    have p5 : (0 : ℝ) < (Real.sin (θ * Real.pi / 180)) ^ ((1 : ℝ)/3) :=
      Real.rpow_pos_of_pos hsin _
    have c1 : (0 : ℝ) < 1.161 := by norm_num
    exact mul_pos (mul_pos (mul_pos (mul_pos (mul_pos c1 p1) p2) p3) p4) p5

lemma ocean_wavefield_ne_none_iff (Dtc : Option ℝ) (wd cd : ℝ)
    (dl : List ℝ) (a b c d : ℝ) :
    ocean_wavefield_from_crater Dtc wd cd dl a b c d ≠ none ↔
      ∃ x, Dtc = some x ∧ 0 < x := by
  unfold ocean_wavefield_from_crater
  cases Dtc with
  | none => simp
  | some x =>
    dsimp only
    by_cases h : x ≤ 0
    · rw [if_pos h]
      simp only [ne_eq, not_true_eq_false, false_iff, not_exists]
      rintro y ⟨hy, hy0⟩
      cases hy
      exact absurd hy0 (not_lt.mpr h)
    · rw [if_neg h]
      simp only [ne_eq, Option.some_ne_none, not_false_eq_true, true_iff]
      exact ⟨x, rfl, not_le.mp h⟩

/-- C4 counterexample: target `"water"` (so the claim's condition holds)
but a record with no diameter information at all — the transient crater
diameter cannot be computed, `_ocean_wavefield_from_crater` returns
`None`, and the ocean block is absent even though the target is water. -/
theorem impact_ocean_presence_cex :
    pyOrStr "water" "rock" = "water" ∧
    (estimate_impact_effects 0 empty_neo none none 45 "water" none none
      none none 50 [] 2 1000 (1/10000)).ocean = none ∧
    resolve_diameter_km empty_neo none none = none := by
  refine ⟨by decide, ?_, rfl⟩
  unfold estimate_impact_effects
  dsimp only
  split_ifs <;> rfl

lemma resolve_density_nonneg (enr : Option PhysProfile) (odr : Option ℚ)
    (hodr : ∀ x, odr = some x → 0 ≤ x)
    (henr_r : ∀ e, enr = some e → ∀ x, e.density_g_cm3 = some x → 0 ≤ x) :
    ∀ q, resolve_density_g_cm3 enr odr = some q → 0 ≤ q := by
  intro q hq
  cases ho : odr with
  | some x =>
    rw [ho] at hq
    simp only [resolve_density_g_cm3, Option.some_inj] at hq
    rw [← hq]
    exact hodr x ho
  | none =>
    rw [ho] at hq
    simp only [resolve_density_g_cm3] at hq
    cases he : enr with
    | none =>
      rw [he] at hq
      simp only [Option.some_inj] at hq
      rw [← hq]
      norm_num [DEFAULT_RHO_G_CM3]
    | some e =>
      rw [he] at hq
      exact henr_r e he q hq

lemma crater_transient_is_some (L : Option ℝ) (v ρi ρt θ : ℝ)
    (hv : 0 < v) (hρi : 0 < ρi) (hρt : 0 < ρt)
    (hθ1 : 1 ≤ θ) (hθ2 : θ ≤ 90)
    (hL : ∀ x, L = some x → 0 < x) (x : ℝ) (hx : L = some x) :
    ∃ d, crater_transient_diameter_m L v ρi ρt θ = some d ∧ 0 < d := by
  have hx0 := hL x hx
  have hguard : ¬(x = 0 ∨ v = 0 ∨ ρi = 0 ∨ ρt = 0 ∨ θ = 0) := by
    push_neg
    exact ⟨ne_of_gt hx0, ne_of_gt hv, ne_of_gt hρi, ne_of_gt hρt,
      ne_of_gt (lt_of_lt_of_le one_pos hθ1)⟩
  have hnone : crater_transient_diameter_m L v ρi ρt θ ≠ none := by
    unfold crater_transient_diameter_m
    rw [hx]
    dsimp only
    rw [if_neg hguard]
    simp
  obtain ⟨d, hd⟩ := Option.ne_none_iff_exists'.mp hnone
  exact ⟨d, hd, crater_transient_pos L v ρi ρt θ hv hρi hρt hθ1 hθ2 hL d hd⟩

/-- C4 (amended): restricting to the domain where the Python computation
is defined (impact angle within the route's 1–90° bound and all supplied
size/density/velocity figures non-negative, with strict positivity for
diameters), the ocean block is present IFF the target is water/ice or a
water-depth override is supplied AND a projectile diameter could be
resolved; when no diameter is resolvable the transient crater is `None`
and the ocean block is absent even for a water target. -/
theorem impact_ocean_presence_amended (now : Int) (neo : NeoRecord)
    (enr : Option PhysProfile) (vk : Option ℚ) (angle : ℚ) (target : String)
    (odk odr omk : Option ℚ) (wd : Option ℚ) (cd : ℚ) (crl : List ℚ)
    (rf dl sc : ℚ)
    (hang1 : 1 ≤ angle) (hang2 : angle ≤ 90)
    (hvk : ∀ x, vk = some x → 0 ≤ x)
    (hodk : ∀ x, odk = some x → 0 < x)
    (hodr : ∀ x, odr = some x → 0 ≤ x)
    (henr_d : ∀ e, enr = some e → ∀ x, e.diameter_km = some x → 0 < x)
    (henr_r : ∀ e, enr = some e → ∀ x, e.density_g_cm3 = some x → 0 ≤ x)
    (hnmin : ∀ x, neo.diameter_min_km = some x → 0 < x)
    (hnmax : ∀ x, neo.diameter_max_km = some x → 0 < x) :
    (estimate_impact_effects now neo enr vk angle target odk odr omk wd cd
      crl rf dl sc).ocean ≠ none ↔
      (((pyOrStr target "rock").toLower = "water" ∨
        (pyOrStr target "rock").toLower = "ice" ∨ wd ≠ none) ∧
       resolve_diameter_km neo enr odk ≠ none) := by
  have hVms : (0 : ℝ) < ((resolve_velocity_kms now neo vk : ℚ) : ℝ) * 1000 := by
    have := resolve_velocity_pos now neo vk hvk
    have hcast : (0 : ℝ) < ((resolve_velocity_kms now neo vk : ℚ) : ℝ) := by
      exact_mod_cast this
    linarith
  have hρi : 0 < pyOrR (Option.map (fun q : ℚ => (q : ℝ))
      (to_kg_m3_from_g_cm3 (resolve_density_g_cm3 enr odr))) 2500 := by
    apply pyOrR_pos_of_nonneg _ _ (by norm_num)
    intro v hv'
    unfold to_kg_m3_from_g_cm3 at hv'
    cases hr : resolve_density_g_cm3 enr odr with
    | none => rw [hr] at hv'; simp at hv'
    | some q =>
      rw [hr] at hv'
      simp only [Option.map_some', Option.some_inj] at hv'
      rw [← hv']
      have hq := resolve_density_nonneg enr odr hodr henr_r q hr
      have : (0 : ℚ) ≤ q * 1000 := by nlinarith
      exact_mod_cast this
  have hρt := TARGET_RHO_pos (pyOrStr target "rock").toLower
  have hθ1 : (1 : ℝ) ≤ ((angle : ℚ) : ℝ) := by exact_mod_cast hang1
  have hθ2 : ((angle : ℚ) : ℝ) ≤ 90 := by exact_mod_cast hang2
  have hL : ∀ y, Option.map (fun d : ℝ => d * 1000)
      (resolve_diameter_km neo enr odk) = some y → 0 < y := by
    intro y hy
    cases hr : resolve_diameter_km neo enr odk with
    | none => rw [hr] at hy; simp at hy
    | some q =>
      rw [hr] at hy
      simp only [Option.map_some', Option.some_inj] at hy
      rw [← hy]
      have := resolve_diameter_pos neo enr odk hodk henr_d hnmin hnmax q hr
      linarith
  unfold estimate_impact_effects
  dsimp only
  by_cases hc : ((pyOrStr target "rock").toLower = "water" ∨
      (pyOrStr target "rock").toLower = "ice" ∨ wd ≠ none)
  · rw [if_pos hc, ocean_wavefield_ne_none_iff]
    constructor
    · rintro ⟨x, hx, hx0⟩
      refine ⟨hc, fun hdn => ?_⟩
      rw [hdn] at hx
      simp [crater_transient_diameter_m] at hx
    · rintro ⟨-, hdn⟩
      obtain ⟨q, hq⟩ := Option.ne_none_iff_exists'.mp hdn
      exact crater_transient_is_some _ _ _ _ _ hVms hρi hρt hθ1 hθ2 hL
        (q * 1000) (by rw [hq]; rfl)
  · rw [if_neg hc]
    constructor
    · intro h
      exact absurd rfl h
    · rintro ⟨h1, -⟩
      exact absurd h1 hc

/-- Record with a positive estimated-diameter range, used as a concrete
input. -/
def witness_neo : NeoRecord :=
  { diameter_min_km := some 1
    diameter_max_km := some 2
    is_potentially_hazardous := false
    absolute_magnitude_h := none
    close_approach_data := [] }

/-- Witness for the amended C4 statement at a water target with a
resolvable diameter. -/
theorem impact_ocean_presence_amended_witness :
    (estimate_impact_effects 0 witness_neo none none 45 "water" none none
      none none 50 [] 2 1000 (1/10000)).ocean ≠ none ↔
      (((pyOrStr "water" "rock").toLower = "water" ∨
        (pyOrStr "water" "rock").toLower = "ice" ∨ (none : Option ℚ) ≠ none) ∧
       resolve_diameter_km witness_neo none none ≠ none) :=
  impact_ocean_presence_amended 0 witness_neo none none 45 "water" none
    none none none 50 [] 2 1000 (1/10000)
    (by norm_num) (by norm_num)
    (fun x h => nomatch h) (fun x h => nomatch h) (fun x h => nomatch h)
    (fun e h => nomatch h) (fun e h => nomatch h)
    (fun x h => by cases h; norm_num) (fun x h => by cases h; norm_num)

end NeoProxy
